import Mathlib

/-!
Verification of `video_first_last_frame.py` (ComfyUI VideoFirstLastFrame node).

The module is embedded shallowly: numpy arrays become `NDArray` (shape plus
row-major data), torch tensors become `Tensor` (rational-valued data, so the
exact value 1/255 is representable), the filesystem, the decoding backends and
the host `folder_paths` module become explicit environment records, and Python
exceptions become `Except` / `Option` values.  Each definition mirrors one
Python function of the source file and keeps its name.
-/

namespace VideoFrameNode

/-! ### Python string primitives -/

/-- Whitespace characters recognised by Python `str.strip` (ASCII subset). -/
def pyIsSpace (c : Char) : Bool :=
  c = ' ' || c = '\t' || c = '\n' || c = '\x0d' || c = '\x0b' || c = '\x0c'

/-- Python `str.strip()`: drop leading and trailing whitespace. -/
def pyStrip (s : String) : String :=
  ⟨((s.data.dropWhile pyIsSpace).reverse.dropWhile pyIsSpace).reverse⟩

/-- ASCII lower-casing of one character, as `str.lower` does on ASCII. -/
def lowerChar (c : Char) : Char :=
  if 'A' ≤ c && c ≤ 'Z' then Char.ofNat (c.toNat + 32) else c

/-- Python `str.lower()` (ASCII subset). -/
def pyLower (s : String) : String :=
  ⟨s.data.map lowerChar⟩

/-- Python `video.replace("\\", "/")`: the pattern is a single character, so
this is a character map. -/
def backslashToSlash (s : String) : String :=
  ⟨s.data.map (fun c => if c = '\\' then '/' else c)⟩

/-- Python `s.startswith(p)`. -/
def startsWithS (s p : String) : Bool :=
  p.data.isPrefixOf s.data

/-- Python `s.endswith(p)`. -/
def endsWithS (s p : String) : Bool :=
  p.data.isSuffixOf s.data

/-- Everything after the first slash of the character list, or `none` when no
slash occurs. -/
def afterFirstSlash : List Char → Option (List Char)
  | [] => none
  | c :: cs => if c = '/' then some cs else afterFirstSlash cs

/-- Python `s.split("/", 1)[1]`: `none` models the `IndexError` raised when the
string contains no slash. -/
def splitSlashRest (s : String) : Option String :=
  (afterFirstSlash s.data).map (fun l => ⟨l⟩)

/-- POSIX `os.path.join(a, b)` for two components. -/
def pyJoin (a b : String) : String :=
  if startsWithS b "/" then b
  else if a = "" || endsWithS a "/" then a ++ b
  else a ++ "/" ++ b

/-- POSIX `os.path.basename`: the part after the last slash. -/
def pyBasename (s : String) : String :=
  ⟨(s.data.reverse.takeWhile (fun c => c ≠ '/')).reverse⟩

/-- Python `p or v` for `p : Optional[str]`: `None` and the empty string are
falsy. -/
def pyOr (p : Option String) (v : String) : String :=
  match p with
  | none => v
  | some s => if s = "" then v else s

/-! ### Arrays and tensors -/

/-- A numpy array: shape and row-major flattened 8-bit data. -/
structure NDArray where
  shape : List Nat
  data : List Nat
  deriving DecidableEq, Repr

/-- A torch tensor as ComfyUI uses it: shape and row-major rational data. -/
structure Tensor where
  shape : List Nat
  data : List ℚ
  deriving DecidableEq, Repr

/-- Torch `unsqueeze(0)`: prepend a batch axis of size 1. -/
def Tensor.unsqueeze0 (t : Tensor) : Tensor :=
  { shape := 1 :: t.shape, data := t.data }

/-- Embedding of `_to_comfy_image`: `None` input and shape violations raise
`ValueError`; otherwise the 8-bit data is scaled by 1/255 and a leading batch
dimension is added. -/
def toComfyImage (frame_rgb : Option NDArray) : Except String Tensor :=
  match frame_rgb with
  | none => .error "Got empty frame"
  | some a =>
    if a.shape.length ≠ 3 || a.shape.getD 2 0 ≠ 3 then
      .error "Expected RGB HxWx3 frame"
    else
      .ok { shape := 1 :: a.shape, data := a.data.map (fun v => (v : ℚ) / 255) }

/-! ### Frame decoder (`_read_first_last_frames`) -/

/-- BGR-to-RGB conversion (`cv2.cvtColor(..., COLOR_BGR2RGB)`) on row-major
data with the channel axis innermost: every 3-chunk is reversed. -/
def swapChunks3 : List Nat → List Nat
  | b :: g :: r :: rest => r :: g :: b :: swapChunks3 rest
  | xs => xs

/-- BGR-to-RGB on a whole array. -/
def bgrToRGB (a : NDArray) : NDArray :=
  { shape := a.shape, data := swapChunks3 a.data }

/-- Model of an opened `cv2.VideoCapture`.  `frames` are the frames the
sequential `cap.read()` stream yields from the start, in order; `frameCount`
is the (possibly unreliable) `CAP_PROP_FRAME_COUNT` after `int(... or 0)`;
`seekRead` is the frame obtained by seeking to `frameCount - 1` and reading
(`none` when that read fails); `postSeekFrames` are the frames the sequential
stream yields after a failed seek-read, the decoder position then being
backend-dependent. -/
structure Capture where
  opened : Bool
  frames : List NDArray
  frameCount : Int
  seekRead : Option NDArray
  postSeekFrames : List NDArray

/-- Last frame kept by the sequential fallback loop: the loop starts from
`dflt` and overwrites it with every further successful read. -/
def scanLast (dflt : NDArray) (xs : List NDArray) : NDArray :=
  xs.getLastD dflt

/-- Errors `_read_first_last_frames` can raise. -/
inductive ReadErr
  | valueError (msg : String)
  | fileNotFound (msg : String)
  | runtimeError (msg : String)
  deriving DecidableEq, Repr

/-- OpenCV branch of `_read_first_last_frames`, lines 40-73 of the source. -/
def readWithCV (cap : Capture) : Except ReadErr (NDArray × NDArray) :=
  if !cap.opened then .error (.valueError "Failed to open video")
  else
    match cap.frames with
    | [] => .error (.valueError "Failed to read the first frame")
    | first :: rest =>
      let firstRGB := bgrToRGB first
      if cap.frameCount > 1 then
        match cap.seekRead with
        | some lastBGR => .ok (firstRGB, bgrToRGB lastBGR)
        | none => .ok (firstRGB, bgrToRGB (scanLast first cap.postSeekFrames))
      else
        .ok (firstRGB, bgrToRGB (scanLast first rest))

/-- Channel truncation `x[:, :, :3]` applied by the imageio branch when the
array is 3-dimensional with at least 3 channels. -/
def truncate3 (a : NDArray) : NDArray :=
  if a.shape.length = 3 && a.shape.getD 2 0 ≥ 3 then
    { shape := [a.shape.getD 0 0, a.shape.getD 1 0, 3]
      data := (a.data.toChunks (a.shape.getD 2 0)).map (fun c => c.take 3)
        |>.flatten }
  else a

/-- Environment of `_read_first_last_frames`: `~`/environment-variable
expansion, the filesystem's regular-file test, the OpenCV backend
(`none` models `ImportError`, otherwise opening a path yields a `Capture`)
and the imageio backend (reading the first/last pair, `error` modelling any
exception it raises). -/
structure DecodeEnv where
  expandUser : String → String
  expandVars : String → String
  isFile : String → Bool
  cv2 : Option (String → Capture)
  iio : String → Except String (NDArray × NDArray)

/-- Expanded path computed at line 32 of the source. -/
def expandedPath (env : DecodeEnv) (video_path : String) : String :=
  env.expandVars (env.expandUser (pyStrip video_path))

/-- Embedding of `_read_first_last_frames`. -/
def readFirstLastFrames (env : DecodeEnv) (video_path : String) :
    Except ReadErr (NDArray × NDArray) :=
  if pyStrip video_path = "" then .error (.valueError "video_path is required")
  else
    let p := expandedPath env video_path
    if !env.isFile p then .error (.fileNotFound ("Video file not found: " ++ p))
    else
      match env.cv2 with
      | some openCap => readWithCV (openCap p)
      | none =>
        match env.iio p with
        | .ok (first, last) => .ok (truncate3 first, truncate3 last)
        | .error e =>
          .error (.runtimeError ("Could not read video frames. Original error: " ++ e))

/-! ### Path resolver (`_resolve_video_path`) -/

/-- Directories served by the host's `folder_paths` module. -/
structure FolderDirs where
  inputDir : String
  outputDir : String
  tempDir : String

/-- Environment of `_resolve_video_path`: `folder_paths` may be unimportable
(`none`, the `ImportError` being swallowed by the `except` clauses), and the
filesystem answers `os.path.isfile`. -/
structure ResolveEnv where
  folderPaths : Option FolderDirs
  isFile : String → Bool

/-- One prefixed-path check inside the first `try` block.  The result is
`error ()` when `video.split("/", 1)[1]` raises `IndexError` (no slash in the
original string even though the lowered, slash-normalised copy matched),
`ok (some p)` when the joined candidate exists (the `return`), and `ok none`
when control falls through to the next check. -/
def checkOnePrefixed (isFile : String → Bool) (cond : Bool) (dir video : String) :
    Except Unit (Option String) :=
  if cond then
    match splitSlashRest video with
    | none => .error ()
    | some rest =>
      let candidate := pyJoin dir rest
      if isFile candidate then .ok (some candidate) else .ok none
  else .ok none

/-- First `try` block of `_resolve_video_path` (lines 109-125): the three
prefixed-directory checks in sequence; any exception aborts the whole block. -/
def tryPrefixedDirs (isFile : String → Bool) (fp : FolderDirs) (video lowered : String) :
    Except Unit (Option String) :=
  match checkOnePrefixed isFile (startsWithS lowered "input/") fp.inputDir video with
  | .error e => .error e
  | .ok (some p) => .ok (some p)
  | .ok none =>
    match checkOnePrefixed isFile (startsWithS lowered "output/") fp.outputDir video with
    | .error e => .error e
    | .ok (some p) => .ok (some p)
    | .ok none =>
      checkOnePrefixed isFile (startsWithS lowered "temp/") fp.tempDir video

/-- Embedding of `_resolve_video_path`.  The `Option String` argument models
the Python parameter, `none` standing for `None` which `(video or "")`
coerces to the empty string. -/
def resolveVideoPath (env : ResolveEnv) (video0 : Option String) : String :=
  let video := pyStrip (video0.getD "")
  if video = "" then video
  else
    let lowered := pyLower (backslashToSlash video)
    let step1 : Option String :=
      match env.folderPaths with
      | none => none
      | some fp =>
        match tryPrefixedDirs env.isFile fp video lowered with
        | .ok r => r
        | .error _ => none
    match step1 with
    | some p => p
    | none =>
      match env.folderPaths with
      | none => video
      | some fp =>
        let candidate := pyJoin fp.inputDir video
        if env.isFile candidate then candidate else video

/-! ### Upstream payload resolver (`_extract_video_source`) -/

/-- Dynamic value arriving on the optional `video_in` input: a path string, a
dict, a list/tuple, a torch tensor, or anything else. -/
inductive Val where
  | str (s : String)
  | dict (m : List (String × Val))
  | vlist (xs : List Val)
  | tensor (t : Tensor)
  | other

/-- Membership test `isinstance(x, torch.Tensor)`. -/
def isTensorVal : Val → Bool
  | .tensor _ => true
  | _ => false

/-- Tensor payload of a `Val` known to be a tensor. -/
def getTensorD : Val → Tensor
  | .tensor t => t
  | _ => { shape := [], data := [] }

/-- Keys probed on dict-like payloads, in priority order (line 159). -/
def pathKeys : List String := ["path", "fullpath", "filename", "file", "video", "name"]

/-- First key of `keys` whose value in the dict is a string with non-blank
content (`isinstance(v, str) and v.strip()`). -/
def firstStringKey (m : List (String × Val)) : List String → Option String
  | [] => none
  | k :: ks =>
    match m.lookup k with
    | some (.str s) => if pyStrip s ≠ "" then some s else firstStringKey m ks
    | _ => firstStringKey m ks

/-- Result triple of `_extract_video_source`: optional path, optional first
and last image tensors. -/
abbrev ExtractResult := Option String × Option Tensor × Option Tensor

/-- Batch-dimension normalisation at lines 178-181: `unsqueeze(0)` when the
tensor is 3-dimensional. -/
def ensureBatch (t : Tensor) : Tensor :=
  if t.shape.length = 3 then t.unsqueeze0 else t

/-- Number of elements of one batch entry of a 4-D tensor. -/
def entrySize (t : Tensor) : Nat := (t.shape.drop 1).prod

/-- Torch slice `t[0:1]` of a 4-D tensor. -/
def sliceFirst (t : Tensor) : Tensor :=
  { shape := 1 :: t.shape.drop 1, data := t.data.take (entrySize t) }

/-- Torch slice `t[-1:]` of a 4-D tensor. -/
def sliceLast (t : Tensor) : Tensor :=
  { shape := 1 :: t.shape.drop 1
    data := t.data.drop ((t.shape.getD 0 0 - 1) * entrySize t) }

/-- Final check of `_extract_video_source` (lines 196-208): a direct 4-D IMAGE
batch tensor with a non-empty batch axis yields its first and last slices. -/
def tensorCheck : Val → ExtractResult
  | .tensor t =>
    if t.shape.length = 4 && t.shape.getD 0 0 ≥ 1 then
      (none, some (sliceFirst t), some (sliceLast t))
    else (none, none, none)
  | _ => (none, none, none)

/-- List branch of `_extract_video_source` (lines 169-193) for a non-empty
list `x :: rest`: all-tensor lists yield their first and last elements,
otherwise only the head is inspected as a string or dict. -/
def listBranch (x : Val) (rest : List Val) : ExtractResult :=
  if (x :: rest).all isTensorVal then
    (none,
     some (ensureBatch (getTensorD x)),
     some (ensureBatch (getTensorD ((x :: rest).getLast (by simp)))))
  else
    match x with
    | .str s => (some s, none, none)
    | .dict m =>
      match firstStringKey m pathKeys with
      | some s => (some s, none, none)
      | none => tensorCheck (.vlist (x :: rest))
    | _ => tensorCheck (.vlist (x :: rest))

/-- Stages of `_extract_video_source` after the dict branch may have replaced
the payload with its embedded `frames` value. -/
def extractTail : Val → ExtractResult
  | .vlist (x :: rest) => listBranch x rest
  | v => tensorCheck v

/-- Embedding of `_extract_video_source`. -/
def extractVideoSource (video_in : Option Val) : ExtractResult :=
  match video_in with
  | none => (none, none, none)
  | some (.str s) => (some s, none, none)
  | some (.dict m) =>
    match firstStringKey m pathKeys with
    | some s => (some s, none, none)
    | none =>
      match m.lookup "frames" with
      | some frames => extractTail frames
      | none => extractTail (.dict m)
  | some v => extractTail v

/-! ### Preview persister (`_save_temp_preview_png`) -/

/-- Descriptor returned for a stored preview image. -/
structure PreviewDict where
  filename : String
  subfolder : String
  kind : String
  deriving DecidableEq, Repr

/-- Environment of `_save_temp_preview_png`.  Each flag records whether the
corresponding step of the `try` block succeeds: importing `folder_paths`,
importing PIL, `os.makedirs`, `Image.fromarray` on the given frame, and
`save` at the given path.  `uuidHex` is the hex digest drawn from `uuid4()`. -/
structure PreviewWorld where
  folderPathsOk : Bool
  pilOk : Bool
  makedirsOk : Bool
  tempDir : String
  uuidHex : String
  fromarrayOk : NDArray → Bool
  saveOk : NDArray → String → Bool

/-- Name generated at line 219. -/
def previewFilename (w : PreviewWorld) : String :=
  "videoframe_preview_" ++ w.uuidHex ++ ".png"

/-- Embedding of `_save_temp_preview_png`: any failure inside the `try` block
is swallowed and surfaces as `none`. -/
def savePreview (w : PreviewWorld) (frame_rgb : NDArray) : Option PreviewDict :=
  if w.folderPathsOk && w.pilOk && w.makedirsOk && w.fromarrayOk frame_rgb
      && w.saveOk frame_rgb (pyJoin w.tempDir (previewFilename w)) then
    some { filename := previewFilename w, subfolder := "", kind := "temp" }
  else none

/-- Proposition that some step of preview persistence fails. -/
def previewFailure (w : PreviewWorld) (frame_rgb : NDArray) : Prop :=
  ¬(w.folderPathsOk = true ∧ w.pilOk = true ∧ w.makedirsOk = true
    ∧ w.fromarrayOk frame_rgb = true
    ∧ w.saveOk frame_rgb (pyJoin w.tempDir (previewFilename w)) = true)

/-! ### Upload endpoint (`videoframenode_upload`) -/

/-- Uploaded file part: its `filename` attribute (absent when the part object
lacks one) and raw byte content. -/
structure FilePart where
  filename : Option String
  content : List Nat

/-- Environment of one upload request: `form` is the outcome of
`await request.post()` (`error` when it raises) followed by `post.get("file")`
(`ok none` when the field is missing); `inputDir` is the host input
directory. -/
structure UploadWorld where
  form : Except String (Option FilePart)
  inputDir : String

/-- JSON response of the upload endpoint. -/
structure UploadResp where
  status : Nat
  name : Option String
  errorMsg : Option String
  deriving DecidableEq, Repr

/-- File write the handler performs on acceptance. -/
structure WriteEffect where
  path : String
  data : List Nat
  deriving DecidableEq, Repr

/-- Embedding of `videoframenode_upload`: the response together with the file
write performed, if any. -/
def videoframenodeUpload (w : UploadWorld) : UploadResp × Option WriteEffect :=
  match w.form with
  | .error e =>
    ({ status := 400, name := none, errorMsg := some ("invalid form data: " ++ e) }, none)
  | .ok none =>
    ({ status := 400, name := none, errorMsg := some "missing file" }, none)
  | .ok (some fp) =>
    let filename := pyOr fp.filename ""
    if !endsWithS (pyLower filename) ".mp4" then
      ({ status := 400, name := none, errorMsg := some "only .mp4 supported" }, none)
    else
      let safeName := pyBasename filename
      ({ status := 200, name := some safeName, errorMsg := none },
       some { path := pyJoin w.inputDir safeName, data := fp.content })

/-! ### Recent-files endpoint (`videoframenode_recent`) -/

/-- Directory as the listing endpoint sees it: whether `os.path.isdir` holds,
and for each entry its name with `os.path.getmtime` either succeeding with a
timestamp or raising (`none`). -/
structure DirListing where
  isDir : Bool
  entries : List (String × Option Int)

/-- Environment of one listing request.  `fail` models an exception raised
inside the outer `try` (for example `folder_paths` lookups failing), carrying
its message. -/
structure RecentWorld where
  fail : Option String
  inputL : DirListing
  outputL : DirListing

/-- JSON response of the listing endpoint. -/
structure RecentResp where
  files : List String
  errorMsg : Option String
  deriving DecidableEq, Repr

/-- Entries collected from one directory (lines 276-287): skip a missing
directory, keep `.mp4` names, default a failed `getmtime` to 0, and tag each
name with the directory's label. -/
def collectDir (label : String) (d : DirListing) : List (Int × String) :=
  if !d.isDir then []
  else
    d.entries.filterMap (fun e =>
      if endsWithS (pyLower e.1) ".mp4" then
        some (e.2.getD 0, label ++ "/" ++ e.1)
      else none)

/-- Descending-by-timestamp comparison used by
`entries.sort(key=lambda x: x[0], reverse=True)`. -/
def mtimeDesc (a b : Int × String) : Bool := b.1 ≤ a.1

/-- Collected entries of both directories, sorted newest first (Python's sort
is stable; so is `List.mergeSort`). -/
def recentSorted (w : RecentWorld) : List (Int × String) :=
  ((collectDir "input" w.inputL) ++ (collectDir "output" w.outputL)).mergeSort mtimeDesc

/-- Embedding of `videoframenode_recent`. -/
def videoframenodeRecent (w : RecentWorld) : RecentResp :=
  match w.fail with
  | some e => { files := [], errorMsg := some e }
  | none => { files := ((recentSorted w).take 50).map Prod.snd, errorMsg := none }

/-! ### Node entry point (`VideoFirstLastFrame.load`) -/

/-- Result of a successful `load`: either the bare pair of image tensors, or
the pair together with a preview descriptor for the UI. -/
inductive LoadResult where
  | plain (first last : Tensor)
  | withUI (preview : PreviewDict) (first last : Tensor)
  deriving DecidableEq, Repr

/-- Path string handed to `_resolve_video_path` at line 331:
`path_from_in or video`. -/
def loadChosenPath (video : String) (video_in : Option Val) : String :=
  pyOr (extractVideoSource video_in).1 video

/-- Embedding of `VideoFirstLastFrame.load`.  Exceptions raised by
`_read_first_last_frames` or `_to_comfy_image` propagate as `error`. -/
def load (denv : DecodeEnv) (pw : PreviewWorld) (renv : ResolveEnv)
    (video : String) (video_in : Option Val) : Except ReadErr LoadResult :=
  let r := extractVideoSource video_in
  match r.2.1, r.2.2 with
  | some firstT, some lastT => .ok (.plain firstT lastT)
  | _, _ =>
    let video_path := resolveVideoPath renv (some (loadChosenPath video video_in))
    match readFirstLastFrames denv video_path with
    | .error e => .error e
    | .ok (first_rgb, last_rgb) =>
      let preview := savePreview pw first_rgb
      match toComfyImage (some first_rgb), toComfyImage (some last_rgb) with
      | .ok t1, .ok t2 =>
        match preview with
        | some d => .ok (.withUI d t1 t2)
        | none => .ok (.plain t1 t2)
      | .error e, _ => .error (.valueError e)
      | _, .error e => .error (.valueError e)

/-! ### Theorems -/

/-- C2: for every 3-dimensional array with 3 channels in the last axis,
`_to_comfy_image` returns a tensor with a leading batch dimension of size 1
whose every value is the corresponding input value scaled by exactly 1/255
(rationals model the float values, so the scale is exact); a `None` input or
any other shape raises `ValueError`. -/
theorem toComfyImage_spec (a : NDArray) :
    (a.shape.length = 3 → a.shape.getD 2 0 = 3 →
      toComfyImage (some a) =
        .ok { shape := 1 :: a.shape, data := a.data.map (fun v => (v : ℚ) / 255) }) ∧
    (∃ e, toComfyImage none = Except.error e) ∧
    (a.shape.length ≠ 3 ∨ a.shape.getD 2 0 ≠ 3 →
      ∃ e, toComfyImage (some a) = Except.error e) := by
  refine ⟨?_, ⟨"Got empty frame", rfl⟩, ?_⟩
  · intro h1 h2
    simp only [toComfyImage]
    rw [h1, h2]
    simp
  · intro h
    refine ⟨"Expected RGB HxWx3 frame", ?_⟩
    simp only [toComfyImage]
    have hc : (decide (a.shape.length ≠ 3) || decide (a.shape.getD 2 0 ≠ 3)) = true := by
      rcases h with h | h
      · exact (Bool.or_eq_true _ _) ▸ Or.inl (decide_eq_true h)
      · exact (Bool.or_eq_true _ _) ▸ Or.inr (decide_eq_true h)
    rw [hc]
    simp

/-- Witness for C2 at a concrete 1×1×3 array and a concrete 2-dimensional
array. -/
theorem toComfyImage_spec_witness :
    toComfyImage (some ⟨[1, 1, 3], [10, 20, 30]⟩) =
      .ok ⟨[1, 1, 1, 3], [10 / 255, 20 / 255, 30 / 255]⟩ ∧
    ∃ e, toComfyImage (some ⟨[2, 2], [1, 2, 3, 4]⟩) = Except.error e := by
  constructor
  · have h := (toComfyImage_spec ⟨[1, 1, 3], [10, 20, 30]⟩).1 (by decide) (by decide)
    rw [h]
    congr 1
  · exact (toComfyImage_spec ⟨[2, 2], [1, 2, 3, 4]⟩).2.2 (Or.inl (by decide))

lemma getLastD_map {α β : Type} (f : α → β) (l : List α) (d : α) :
    (l.map f).getLastD (f d) = f (l.getLastD d) := by
  induction l generalizing d with
  | nil => rfl
  | cons x xs ih => rw [List.map_cons, List.getLastD_cons, List.getLastD_cons, ih]

/-- C3: for every non-empty list whose items are all image tensors,
`_extract_video_source` returns the first and last elements directly as the
frame pair (a 3-dimensional element gains a leading batch dimension), with no
path; the definition takes no filesystem environment, so no filesystem is
touched. -/
theorem extract_list_of_tensors (ts : List Tensor) (h : ts ≠ []) :
    extractVideoSource (some (.vlist (ts.map Val.tensor))) =
      (none, some (ensureBatch (ts.head h)), some (ensureBatch (ts.getLast h))) := by
  cases ts with
  | nil => exact absurd rfl h
  | cons t rest =>
    simp only [List.map_cons, extractVideoSource, extractTail, listBranch]
    rw [if_pos]
    · congr 1
      · congr 2
        have h1 : (Val.tensor t :: rest.map Val.tensor).getLast (by simp)
            = (rest.map Val.tensor).getLastD (Val.tensor t) := by
          rw [List.getLast_eq_getLastD]
        rw [h1, getLastD_map, List.getLast_eq_getLastD]
        rfl
    · simp [isTensorVal, List.all_eq_true]

/-- Witness for C3 at a concrete three-element list of tensors. -/
theorem extract_list_of_tensors_witness :
    extractVideoSource (some (.vlist
      [Val.tensor ⟨[1, 1, 3], [1, 2, 3]⟩,
       Val.tensor ⟨[1, 1, 1, 3], [4, 5, 6]⟩,
       Val.tensor ⟨[2, 2, 3], [7, 8, 9]⟩])) =
    (none, some ⟨[1, 1, 1, 3], [1, 2, 3]⟩, some ⟨[1, 2, 2, 3], [7, 8, 9]⟩) := by
  have h := extract_list_of_tensors
    [⟨[1, 1, 3], [1, 2, 3]⟩, ⟨[1, 1, 1, 3], [4, 5, 6]⟩, ⟨[2, 2, 3], [7, 8, 9]⟩]
    (by simp)
  show extractVideoSource (some (.vlist (List.map Val.tensor
    [⟨[1, 1, 3], [1, 2, 3]⟩, ⟨[1, 1, 1, 3], [4, 5, 6]⟩, ⟨[2, 2, 3], [7, 8, 9]⟩]))) = _
  rw [h]; decide

/-- Sample 1×1×3 frame used by witnesses. -/
def sampleFrame : NDArray := ⟨[1, 1, 3], [1, 2, 3]⟩

/-- Sample single-frame capture used by witnesses: opened, one sequential
frame, reported count 1, no seek result. -/
def sampleCapture : Capture := ⟨true, [sampleFrame], 1, none, []⟩

/-- Sample decode environment used by witnesses: identity expansions, every
path an existing regular file, OpenCV available and yielding
`sampleCapture`. -/
def sampleDecodeEnv : DecodeEnv :=
  { expandUser := id, expandVars := id, isFile := fun _ => true
    cv2 := some (fun _ => sampleCapture), iio := fun _ => .error "unavailable" }

/-- Decode environment whose filesystem has no files, used by witnesses. -/
def noFileDecodeEnv : DecodeEnv :=
  { expandUser := id, expandVars := id, isFile := fun _ => false
    cv2 := some (fun _ => sampleCapture), iio := fun _ => .error "unavailable" }

/-- C1: when the opened capture yields exactly one sequential frame and the
reported frame count is not greater than 1, `_read_first_last_frames` returns
the first frame (BGR-converted) as both first and last, so the two results
are identical. -/
theorem read_single_frame_identical (env : DecodeEnv) (openCap : String → Capture)
    (f : NDArray) (p : String)
    (hstrip : pyStrip p ≠ "")
    (hfile : env.isFile (expandedPath env p) = true)
    (hcv : env.cv2 = some openCap)
    (hopen : (openCap (expandedPath env p)).opened = true)
    (hframes : (openCap (expandedPath env p)).frames = [f])
    (hcount : (openCap (expandedPath env p)).frameCount ≤ 1) :
    readFirstLastFrames env p = .ok (bgrToRGB f, bgrToRGB f) := by
  simp only [readFirstLastFrames]
  rw [if_neg hstrip, hfile, hcv]
  simp only [Bool.not_true, Bool.false_eq_true, if_false]
  simp only [readWithCV, hopen, hframes]
  rw [if_neg (not_lt.mpr hcount)]
  simp [scanLast]

/-- Witness for C1: a concrete single-frame video file. -/
theorem read_single_frame_identical_witness :
    readFirstLastFrames sampleDecodeEnv "v.mp4" =
      .ok (⟨[1, 1, 3], [3, 2, 1]⟩, ⟨[1, 1, 3], [3, 2, 1]⟩) := by
  have h := read_single_frame_identical sampleDecodeEnv (fun _ => sampleCapture)
    sampleFrame "v.mp4" (by decide) rfl rfl rfl rfl (by decide)
  rw [h]
  congr 1

/-- C5: for every decode environment — in particular whatever either backend
would do — a path that strips to the empty string raises `ValueError`, and a
non-empty path whose stripped, user- and variable-expanded form is not an
existing regular file raises `FileNotFoundError`, in both cases before any
backend is consulted (the result does not depend on `cv2` or `iio`). -/
theorem read_path_errors (env : DecodeEnv) (p : String) :
    (pyStrip p = "" →
      readFirstLastFrames env p = .error (.valueError "video_path is required")) ∧
    (pyStrip p ≠ "" → env.isFile (expandedPath env p) = false →
      readFirstLastFrames env p =
        .error (.fileNotFound ("Video file not found: " ++ expandedPath env p))) := by
  constructor
  · intro h
    simp only [readFirstLastFrames]
    rw [if_pos h]
  · intro h1 h2
    simp only [readFirstLastFrames]
    rw [if_neg h1, h2]
    simp

/-- Witness for C5: a whitespace-only path and a missing file. -/
theorem read_path_errors_witness :
    readFirstLastFrames noFileDecodeEnv "  " =
      .error (.valueError "video_path is required") ∧
    readFirstLastFrames noFileDecodeEnv "v.mp4" =
      .error (.fileNotFound "Video file not found: v.mp4") := by
  constructor
  · exact (read_path_errors noFileDecodeEnv "  ").1 (by decide)
  · have h := (read_path_errors noFileDecodeEnv "v.mp4").2 (by decide) rfl
    rw [h]
    congr 1

lemma checkOnePrefixed_ok_some {isFile : String → Bool} {cond : Bool}
    {dir video p : String}
    (h : checkOnePrefixed isFile cond dir video = .ok (some p)) : isFile p = true := by
  simp only [checkOnePrefixed] at h
  split at h
  · split at h
    · exact absurd h (by simp)
    · split at h
      · rename_i hf
        simp only [Except.ok.injEq, Option.some.injEq] at h
        rw [← h]
        exact hf
      · simp at h
  · simp at h

lemma tryPrefixedDirs_ok_some {isFile : String → Bool} {fp : FolderDirs}
    {video lowered p : String}
    (h : tryPrefixedDirs isFile fp video lowered = .ok (some p)) : isFile p = true := by
  unfold tryPrefixedDirs at h
  split at h
  · exact absurd h (by simp)
  · rename_i heq
    simp only [Except.ok.injEq, Option.some.injEq] at h
    exact h ▸ checkOnePrefixed_ok_some heq
  · split at h
    · exact absurd h (by simp)
    · rename_i heq
      simp only [Except.ok.injEq, Option.some.injEq] at h
      exact h ▸ checkOnePrefixed_ok_some heq
    · exact checkOnePrefixed_ok_some h

/-- C10: `_resolve_video_path` is total and never raises.  For every
environment — `folder_paths` importable or not, any filesystem — and every
input string (including `None`, coerced to the empty string), the result is
either the stripped original string or a path the filesystem confirms as an
existing file.  Exceptions inside either `try` block (for example the
`IndexError` from `split("/", 1)[1]` on a backslash-written prefixed string)
are modelled by the `error` branch of `tryPrefixedDirs` and are swallowed. -/
theorem resolve_total (env : ResolveEnv) (video0 : Option String) :
    resolveVideoPath env video0 = pyStrip (video0.getD "") ∨
    env.isFile (resolveVideoPath env video0) = true := by
  by_cases h : pyStrip (video0.getD "") = ""
  · left
    simp only [resolveVideoPath, if_pos h]
  · cases hfp : env.folderPaths with
    | none =>
      left
      simp only [resolveVideoPath, if_neg h, hfp]
    | some fp =>
      cases ht : tryPrefixedDirs env.isFile fp (pyStrip (video0.getD ""))
          (pyLower (backslashToSlash (pyStrip (video0.getD "")))) with
      | error e =>
        by_cases hf : env.isFile (pyJoin fp.inputDir (pyStrip (video0.getD ""))) = true
        · right
          simp only [resolveVideoPath, if_neg h, hfp, ht, if_pos hf]
          exact hf
        · left
          simp only [resolveVideoPath, if_neg h, hfp, ht, if_neg hf]
      | ok r =>
        cases r with
        | some p =>
          right
          simp only [resolveVideoPath, if_neg h, hfp, ht]
          exact tryPrefixedDirs_ok_some ht
        | none =>
          by_cases hf : env.isFile (pyJoin fp.inputDir (pyStrip (video0.getD ""))) = true
          · right
            simp only [resolveVideoPath, if_neg h, hfp, ht, if_pos hf]
            exact hf
          · left
            simp only [resolveVideoPath, if_neg h, hfp, ht, if_neg hf]

lemma startsWithS_input_excl {s : String} (h : startsWithS s "input/" = true) :
    startsWithS s "output/" = false ∧ startsWithS s "temp/" = false := by
  obtain ⟨t, ht⟩ := List.isPrefixOf_iff_prefix.mp h
  constructor
  · rw [startsWithS]
    by_contra hc
    rw [Bool.not_eq_false] at hc
    obtain ⟨u, hu⟩ := List.isPrefixOf_iff_prefix.mp hc
    rw [← ht] at hu
    have h2 : ('o' : Char) :: ("utput/".data ++ u) = 'i' :: ("nput/".data ++ t) := hu
    injection h2 with h3 _
    exact absurd h3 (by decide)
  · rw [startsWithS]
    by_contra hc
    rw [Bool.not_eq_false] at hc
    obtain ⟨u, hu⟩ := List.isPrefixOf_iff_prefix.mp hc
    rw [← ht] at hu
    have h2 : ('t' : Char) :: ("emp/".data ++ u) = 'i' :: ("nput/".data ++ t) := hu
    injection h2 with h3 _
    exact absurd h3 (by decide)

/-- C4: with `folder_paths` importable, an `input/`-prefixed string resolves
to the host input directory joined with the remainder after the first slash
exactly when that candidate exists, and otherwise falls through to the bare
rule instead of erroring; a bare (prefix-free) name resolves to the input
directory joined with it when that exists, and to the literal stripped string
otherwise. -/
theorem resolve_path_rules (env : ResolveEnv) (fp : FolderDirs) (video rest : String)
    (hfp : env.folderPaths = some fp)
    (hv : pyStrip video = video) (hne : video ≠ "") :
    (startsWithS (pyLower (backslashToSlash video)) "input/" = true →
     splitSlashRest video = some rest →
      (env.isFile (pyJoin fp.inputDir rest) = true →
        resolveVideoPath env (some video) = pyJoin fp.inputDir rest) ∧
      (env.isFile (pyJoin fp.inputDir rest) = false →
        resolveVideoPath env (some video) =
          if env.isFile (pyJoin fp.inputDir video) = true then pyJoin fp.inputDir video
          else video)) ∧
    (startsWithS (pyLower (backslashToSlash video)) "input/" = false →
     startsWithS (pyLower (backslashToSlash video)) "output/" = false →
     startsWithS (pyLower (backslashToSlash video)) "temp/" = false →
      (env.isFile (pyJoin fp.inputDir video) = true →
        resolveVideoPath env (some video) = pyJoin fp.inputDir video) ∧
      (env.isFile (pyJoin fp.inputDir video) = false →
        resolveVideoPath env (some video) = video)) := by
  constructor
  · intro hsw hsplit
    obtain ⟨hout, htmp⟩ := startsWithS_input_excl hsw
    constructor
    · intro hf
      simp only [resolveVideoPath, Option.getD_some, hv, if_neg hne, hfp,
        tryPrefixedDirs, checkOnePrefixed, hsw, hsplit, hf, if_true]
    · intro hf
      simp only [resolveVideoPath, Option.getD_some, hv, if_neg hne, hfp,
        tryPrefixedDirs, checkOnePrefixed, hsw, hsplit, hf, hout, htmp,
        if_true, if_false, Bool.false_eq_true]
  · intro h1 h2 h3
    constructor
    · intro hf
      simp only [resolveVideoPath, Option.getD_some, hv, if_neg hne, hfp,
        tryPrefixedDirs, checkOnePrefixed, h1, h2, h3, hf,
        if_true, if_false, Bool.false_eq_true]
    · intro hf
      simp only [resolveVideoPath, Option.getD_some, hv, if_neg hne, hfp,
        tryPrefixedDirs, checkOnePrefixed, h1, h2, h3, hf,
        if_true, if_false, Bool.false_eq_true]

/-- Sample directory set used by witnesses. -/
def sampleDirs : FolderDirs := ⟨"/in", "/out", "/tmp"⟩

/-- Sample resolver environment used by witnesses: `folder_paths` importable
and exactly one existing file, `/in/foo.mp4`. -/
def sampleResolveEnv : ResolveEnv :=
  ⟨some sampleDirs, fun s => s = "/in/foo.mp4"⟩

/-- Witness for C4: `input/foo.mp4` resolves into the input directory, and a
bare name that is not in the input directory is returned unchanged. -/
theorem resolve_path_rules_witness :
    resolveVideoPath sampleResolveEnv (some "input/foo.mp4") = "/in/foo.mp4" ∧
    resolveVideoPath sampleResolveEnv (some "bar.mp4") = "bar.mp4" := by
  constructor
  · have h := ((resolve_path_rules sampleResolveEnv sampleDirs "input/foo.mp4" "foo.mp4"
      rfl (by decide) (by decide)).1 (by decide) (by decide)).1 (by decide)
    rw [h]
    decide
  · exact ((resolve_path_rules sampleResolveEnv sampleDirs "bar.mp4" ""
      rfl (by decide) (by decide)).2 (by decide) (by decide) (by decide)).2 (by decide)

/-- C7 counterexample: the empty string is a string, yet a `video_in` payload
of `""` does not override the primary `video` argument — `path_from_in or
video` at line 331 of the source treats the empty string as falsy, so the
path used is `video`, not the payload. -/
theorem string_payload_empty_no_override :
    extractVideoSource (some (.str "")) = (some "", none, none) ∧
    loadChosenPath "a.mp4" (some (.str "")) = "a.mp4" ∧ "a.mp4" ≠ "" := by
  refine ⟨rfl, rfl, by decide⟩

/-- C7 (amended): a string `video_in` payload is returned as the path by the
resolver, and it overrides the primary `video` argument exactly when it is
non-empty; the empty string falls back to `video`. -/
theorem string_payload_overrides (s video : String) :
    extractVideoSource (some (.str s)) = (some s, none, none) ∧
    (s ≠ "" → loadChosenPath video (some (.str s)) = s) ∧
    (s = "" → loadChosenPath video (some (.str s)) = video) := by
  refine ⟨rfl, ?_, ?_⟩
  · intro h
    simp [loadChosenPath, extractVideoSource, pyOr, h]
  · intro h
    simp [loadChosenPath, extractVideoSource, pyOr, h]

/-- Witness for the amended C7 at a concrete non-empty payload. -/
theorem string_payload_overrides_witness :
    loadChosenPath "a.mp4" (some (.str "b.mp4")) = "b.mp4" :=
  (string_payload_overrides "b.mp4" "a.mp4").2.1 (by decide)

/-- C6: any failure of preview persistence makes `_save_temp_preview_png`
return `None`, and a `None` preview never aborts or alters the extraction:
`load` still returns exactly the two converted frame tensors, merely without
a UI preview entry. -/
theorem preview_failure_swallowed (pw : PreviewWorld) (denv : DecodeEnv)
    (renv : ResolveEnv) (video : String) (video_in : Option Val) (p? : Option String)
    (f l : NDArray) (t1 t2 : Tensor) :
    (previewFailure pw f → savePreview pw f = none) ∧
    (extractVideoSource video_in = (p?, none, none) →
     readFirstLastFrames denv
       (resolveVideoPath renv (some (loadChosenPath video video_in))) = .ok (f, l) →
     savePreview pw f = none →
     toComfyImage (some f) = .ok t1 → toComfyImage (some l) = .ok t2 →
     load denv pw renv video video_in = .ok (.plain t1 t2)) := by
  constructor
  · intro h
    unfold savePreview
    rw [if_neg]
    intro hb
    apply h
    simp only [Bool.and_eq_true] at hb
    exact ⟨hb.1.1.1.1, hb.1.1.1.2, hb.1.1.2, hb.1.2, hb.2⟩
  · intro hext hread hsave h1 h2
    simp only [load, hext, hread, hsave, h1, h2]

/-- Preview world whose `folder_paths` import fails, used by witnesses. -/
def failingPreviewWorld : PreviewWorld :=
  ⟨false, true, true, "/tmp", "abc", fun _ => true, fun _ _ => true⟩

/-- Resolver environment with `folder_paths` unavailable, used by
witnesses. -/
def bareResolveEnv : ResolveEnv := ⟨none, fun _ => false⟩

/-- Witness for C6: a concrete failing preview world returns no descriptor,
and `load` on a concrete single-frame video still returns both converted
tensors. -/
theorem preview_failure_swallowed_witness :
    savePreview failingPreviewWorld sampleFrame = none ∧
    load sampleDecodeEnv failingPreviewWorld bareResolveEnv "v.mp4" none =
      .ok (.plain ⟨[1, 1, 1, 3], [3 / 255, 2 / 255, 1 / 255]⟩
                  ⟨[1, 1, 1, 3], [3 / 255, 2 / 255, 1 / 255]⟩) := by
  constructor
  · exact (preview_failure_swallowed failingPreviewWorld sampleDecodeEnv bareResolveEnv
      "v.mp4" none none sampleFrame sampleFrame ⟨[], []⟩ ⟨[], []⟩).1
      (by simp [previewFailure, failingPreviewWorld])
  · exact (preview_failure_swallowed failingPreviewWorld sampleDecodeEnv bareResolveEnv
      "v.mp4" none none ⟨[1, 1, 3], [3, 2, 1]⟩ ⟨[1, 1, 3], [3, 2, 1]⟩
      ⟨[1, 1, 1, 3], [3 / 255, 2 / 255, 1 / 255]⟩
      ⟨[1, 1, 1, 3], [3 / 255, 2 / 255, 1 / 255]⟩).2 rfl rfl rfl rfl rfl

/-- C9: the upload handler answers with a 4xx status exactly when the form is
malformed, the file field is missing, or the (lower-cased) filename does not
end in `.mp4`; otherwise it writes the raw bytes to the input directory under
the filename's base name (path components stripped) and responds with that
stored name. -/
theorem upload_spec (w : UploadWorld) :
    ((400 ≤ (videoframenodeUpload w).1.status ∧ (videoframenodeUpload w).1.status < 500) ↔
      ((∃ e, w.form = .error e) ∨ w.form = .ok none ∨
       (∃ fp, w.form = .ok (some fp) ∧
         endsWithS (pyLower (pyOr fp.filename "")) ".mp4" = false))) ∧
    (∀ fp, w.form = .ok (some fp) →
      endsWithS (pyLower (pyOr fp.filename "")) ".mp4" = true →
      videoframenodeUpload w =
        ({ status := 200, name := some (pyBasename (pyOr fp.filename "")),
           errorMsg := none },
         some { path := pyJoin w.inputDir (pyBasename (pyOr fp.filename "")),
                data := fp.content })) := by
  constructor
  · cases hf : w.form with
    | error e => simp [videoframenodeUpload, hf]
    | ok o =>
      cases o with
      | none => simp [videoframenodeUpload, hf]
      | some fp =>
        by_cases he : endsWithS (pyLower (pyOr fp.filename "")) ".mp4" = true
        · simp [videoframenodeUpload, hf, he]
        · rw [Bool.not_eq_true] at he
          simp [videoframenodeUpload, hf, he]
  · intro fp hf he
    simp [videoframenodeUpload, hf, he]

/-- Upload request accepted by the handler, used by witnesses. -/
def acceptUploadWorld : UploadWorld := ⟨.ok (some ⟨some "a/clip.mp4", [7, 8]⟩), "/in"⟩

/-- Upload request with a disallowed extension, used by witnesses. -/
def rejectUploadWorld : UploadWorld := ⟨.ok (some ⟨some "clip.mov", []⟩), "/in"⟩

/-- Witness for C9: a `.mp4` upload with a path-bearing filename is stored
under its base name, and a `.mov` upload gets a 4xx response. -/
theorem upload_spec_witness :
    videoframenodeUpload acceptUploadWorld =
      (⟨200, some "clip.mp4", none⟩, some ⟨"/in/clip.mp4", [7, 8]⟩) ∧
    (400 ≤ (videoframenodeUpload rejectUploadWorld).1.status ∧
      (videoframenodeUpload rejectUploadWorld).1.status < 500) := by
  constructor
  · have h := (upload_spec acceptUploadWorld).2 ⟨some "a/clip.mp4", [7, 8]⟩ rfl (by decide)
    rw [h]
    decide
  · exact (upload_spec rejectUploadWorld).1.mpr
      (Or.inr (Or.inr ⟨⟨some "clip.mov", []⟩, rfl, by decide⟩))

lemma mem_collectDir {label : String} {d : DirListing} {a : Int × String}
    (h : a ∈ collectDir label d) :
    d.isDir = true ∧ ∃ n mt, (n, mt) ∈ d.entries ∧
      endsWithS (pyLower n) ".mp4" = true ∧ a = (mt.getD 0, label ++ "/" ++ n) := by
  unfold collectDir at h
  by_cases hd : d.isDir = true
  · rw [if_neg (by simp [hd])] at h
    refine ⟨hd, ?_⟩
    obtain ⟨e, he, hsome⟩ := List.mem_filterMap.mp h
    by_cases hm : endsWithS (pyLower e.1) ".mp4" = true
    · rw [if_pos hm] at hsome
      injection hsome with h2
      exact ⟨e.1, e.2, by simpa using he, hm, h2.symm⟩
    · rw [if_neg hm] at hsome
      cases hsome
  · rw [Bool.not_eq_true] at hd
    rw [if_pos (by simp [hd])] at h
    cases h

/-- C8: on internal failure the listing handler answers with an empty file
list plus the error message; otherwise the file list is the collected entries
of the input and output directories sorted newest-first and truncated to 50:
it has at most 50 entries, the underlying sorted entry list is ordered by
timestamp descending, every listed string is `<label>/<name>` for a `.mp4`
entry of the corresponding existing directory (a missing directory therefore
contributes nothing), and an entry whose `getmtime` raised is kept with
timestamp 0 rather than excluded. -/
theorem recent_spec (w : RecentWorld) :
    (∀ e, w.fail = some e →
      videoframenodeRecent w = { files := [], errorMsg := some e }) ∧
    (w.fail = none →
      (videoframenodeRecent w).files = ((recentSorted w).take 50).map Prod.snd ∧
      (videoframenodeRecent w).files.length ≤ 50 ∧
      List.Pairwise (fun a b : Int × String => b.1 ≤ a.1) (recentSorted w) ∧
      (∀ s, s ∈ (videoframenodeRecent w).files →
        (∃ n mt, w.inputL.isDir = true ∧ (n, mt) ∈ w.inputL.entries ∧
          endsWithS (pyLower n) ".mp4" = true ∧ s = "input" ++ "/" ++ n) ∨
        (∃ n mt, w.outputL.isDir = true ∧ (n, mt) ∈ w.outputL.entries ∧
          endsWithS (pyLower n) ".mp4" = true ∧ s = "output" ++ "/" ++ n)) ∧
      (∀ n, w.inputL.isDir = true → endsWithS (pyLower n) ".mp4" = true →
        (n, (none : Option Int)) ∈ w.inputL.entries →
        ((0 : Int), "input" ++ "/" ++ n) ∈ collectDir "input" w.inputL)) := by
  constructor
  · intro e he
    simp [videoframenodeRecent, he]
  · intro hn
    have hfiles : (videoframenodeRecent w).files =
        ((recentSorted w).take 50).map Prod.snd := by
      simp [videoframenodeRecent, hn]
    refine ⟨hfiles, ?_, ?_, ?_, ?_⟩
    · rw [hfiles, List.length_map, List.length_take]
      exact min_le_left _ _
    · have htrans : ∀ a b c : Int × String,
          mtimeDesc a b = true → mtimeDesc b c = true → mtimeDesc a c = true := by
        intro a b c hab hbc
        simp only [mtimeDesc, decide_eq_true_eq] at hab hbc ⊢
        omega
      have htotal : ∀ a b : Int × String, (mtimeDesc a b || mtimeDesc b a) = true := by
        intro a b
        simp only [mtimeDesc, Bool.or_eq_true, decide_eq_true_eq]
        omega
      have hp := List.sorted_mergeSort htrans htotal
        ((collectDir "input" w.inputL) ++ (collectDir "output" w.outputL))
      unfold recentSorted
      exact hp.imp (fun h => by simpa [mtimeDesc] using h)
    · intro s hs
      rw [hfiles] at hs
      obtain ⟨a, ha, rfl⟩ := List.mem_map.mp hs
      have ha' : a ∈ recentSorted w := List.take_subset _ _ ha
      unfold recentSorted at ha'
      rcases List.mem_append.mp (List.mem_mergeSort.mp ha') with h | h
      · left
        obtain ⟨hd, n, mt, hmem, hext2, heq⟩ := mem_collectDir h
        exact ⟨n, mt, hd, hmem, hext2, by rw [heq]⟩
      · right
        obtain ⟨hd, n, mt, hmem, hext2, heq⟩ := mem_collectDir h
        exact ⟨n, mt, hd, hmem, hext2, by rw [heq]⟩
    · intro n hd hext hmem
      unfold collectDir
      rw [if_neg (by simp [hd])]
      exact List.mem_filterMap.mpr ⟨(n, none), hmem, by simp [hext]⟩

/-- Sample listing world used by witnesses: existing input directory with two
`.mp4` files (one with a failing `getmtime`) and one `.txt` file, missing
output directory. -/
def sampleRecentWorld : RecentWorld :=
  ⟨none,
   ⟨true, [("a.mp4", some 5), ("b.mp4", none), ("c.txt", some 9)]⟩,
   ⟨false, [("z.mp4", some 100)]⟩⟩

/-- Witness for C8 on a concrete listing world. -/
theorem recent_spec_witness :
    (videoframenodeRecent sampleRecentWorld).files.length ≤ 50 ∧
    ((0 : Int), "input" ++ "/" ++ "b.mp4") ∈ collectDir "input" sampleRecentWorld.inputL ∧
    List.Pairwise (fun a b : Int × String => b.1 ≤ a.1) (recentSorted sampleRecentWorld) := by
  refine ⟨((recent_spec sampleRecentWorld).2 rfl).2.1, ?_,
    ((recent_spec sampleRecentWorld).2 rfl).2.2.1⟩
  exact ((recent_spec sampleRecentWorld).2 rfl).2.2.2.2 "b.mp4" rfl (by decide) (by decide)

end VideoFrameNode
